import Mathlib

/-!
Shallow embedding of src/scraper.py (GetFlawed/HouseFinder).

The program is a single-file scraper: three site extractors
(scrape_rightmove, scrape_zoopla, scrape_onthemarket), a persisted
dedup store (load_sent_listings / save_sent_listings), a Discord
notifier, and an orchestrator (main).

Modelling conventions:
- Python values flowing through the JSON code are modelled by `Json`.
- Python exceptions relevant to the program are the `PyErr` type; code
  that may raise returns `Except PyErr`.
- Network transport is an oracle input: each HTTP GET result is passed
  in as an `Except PyErr` value, where `.error .requestException`
  stands for a raised requests.RequestException (connection failure or
  raise_for_status on a non-success status).
- The parsed page handed to BeautifulSoup is abstracted to exactly the
  features the code inspects (the NEXT_DATA script tag, or the
  OnTheMarket DOM pieces).
-/

set_option autoImplicit false

namespace HouseFinder

/-- Python exceptions the scraper can raise or catch. -/
inductive PyErr where
  | keyError
  | indexError
  | attributeError
  | typeError
  | valueError
  | jsonDecodeError
  | fileNotFoundError
  | requestException
deriving DecidableEq, Repr

/-- JSON values (the result of json.loads), also standing for the
dynamically typed Python values the extractors traverse. -/
inductive Json where
  | null
  | bool (b : Bool)
  | num (n : Int)
  | str (s : String)
  | arr (elements : List Json)
  | obj (entries : List (String × Json))
deriving Repr

mutual

/-- Boolean equality on JSON values (Python == restricted to the JSON
fragment; the bool-equals-int corner of Python equality is not needed
by the program, whose keys of interest are strings). -/
def jsonBEq : Json → Json → Bool
  | .null, .null => true
  | .bool a, .bool b => a == b
  | .num a, .num b => a == b
  | .str a, .str b => a == b
  | .arr a, .arr b => jsonListBEq a b
  | .obj a, .obj b => jsonObjBEq a b
  | _, _ => false

def jsonListBEq : List Json → List Json → Bool
  | [], [] => true
  | x :: xs, y :: ys => jsonBEq x y && jsonListBEq xs ys
  | _, _ => false

def jsonObjBEq : List (String × Json) → List (String × Json) → Bool
  | [], [] => true
  | (k1, v1) :: xs, (k2, v2) :: ys => k1 == k2 && jsonBEq v1 v2 && jsonObjBEq xs ys
  | _, _ => false

end

/-- First binding of a key in a JSON object association list. -/
def lookupKV : List (String × Json) → String → Option Json
  | [], _ => none
  | (k, v) :: rest, key => if k = key then some v else lookupKV rest key

/-- Python d.get(k, default): returns the mapped value or the default
on a dict; raises AttributeError on every non-dict value (str, int,
list, None and bool have no .get method). -/
def dictGet (d : Json) (k : String) (dflt : Json) : Except PyErr Json :=
  match d with
  | .obj kvs => .ok ((lookupKV kvs k).getD dflt)
  | _ => .error .attributeError

/-- Python truthiness of a JSON value (used by the `if not listings`
checks). -/
def pyFalsy : Json → Bool
  | .null => true
  | .bool b => !b
  | .num n => n == 0
  | .str s => s.isEmpty
  | .arr xs => xs.isEmpty
  | .obj kvs => kvs.isEmpty

/-- Python iteration over a JSON value: lists yield elements, strings
yield one-character strings, dicts yield their keys; numbers, booleans
and None raise TypeError. -/
def pyIterate : Json → Except PyErr (List Json)
  | .arr xs => .ok xs
  | .str s => .ok (s.toList.map (fun c => .str (String.singleton c)))
  | .obj kvs => .ok (kvs.map (fun kv => .str kv.1))
  | _ => .error .typeError

/-- Python str() of a JSON value, as used by the f-string link
concatenation (container rendering abbreviated). -/
def pyStr : Json → String
  | .str s => s
  | .num n => toString n
  | .bool true => "True"
  | .bool false => "False"
  | .null => "None"
  | .arr _ => "[...]"
  | .obj _ => "\x7b...\x7d"

/-- Python indexing v[0], as used on the displayPrices list. -/
def pyIndexZero : Json → Except PyErr Json
  | .arr [] => .error .indexError
  | .arr (x :: _) => .ok x
  | .str s =>
    match s.toList with
    | [] => .error .indexError
    | c :: _ => .ok (.str (String.singleton c))
  | .obj _ => .error .keyError
  | _ => .error .typeError

/-- The dataclass Property. The Python dataclass does not enforce its
field annotations, so the JSON-sourced fields are kept as the dynamic
values actually stored; `link` is always a genuine string because it is
built by an f-string. -/
structure Property where
  name : Json
  link : String
  image : Json
  price : Json
  bedrooms : Json
  bathrooms : Json
  source : String
deriving Repr

/-- What the code observes of a fetched NEXT_DATA page: either the
script tag with id NEXT_DATA is missing, or it is present and its text
content either fails json.loads or parses to a JSON value. -/
inductive ScriptTag where
  | missing
  | presentUnparsable
  | presentParsed (data : Json)
deriving Repr

/-- One Rightmove listing element: the Property(...) construction in
the loop body of scrape_rightmove, argument by argument in source
order. -/
def rightmoveItem (l : Json) : Except PyErr Property := do
  let name ← dictGet l "displayAddress" (.str "N/A")
  let purl ← dictGet l "propertyUrl" (.str "")
  let pimgs ← dictGet l "propertyImages" (.obj [])
  let image ← dictGet pimgs "mainImageSrc" (.str "")
  let pprice ← dictGet l "price" (.obj [])
  let dps ← dictGet pprice "displayPrices" (.arr [.obj []])
  let dp0 ← pyIndexZero dps
  let price ← dictGet dp0 "displayPrice" (.str "N/A")
  let beds ← dictGet l "bedrooms" (.num 0)
  let baths ← dictGet l "bathrooms" (.num 0)
  pure { name := name, link := "https://www.rightmove.co.uk" ++ pyStr purl,
         image := image, price := price, bedrooms := beds, bathrooms := baths,
         source := "Rightmove" }

/-- The per-listing loop of scrape_rightmove: its try/except catches
exactly (KeyError, IndexError) and skips the element; any other
exception propagates. -/
def rightmoveLoop : List Json → Except PyErr (List Property)
  | [] => .ok []
  | l :: rest =>
    match rightmoveItem l with
    | .ok p =>
      match rightmoveLoop rest with
      | .ok ps => .ok (p :: ps)
      | .error e => .error e
    | .error e =>
      if e = .keyError ∨ e = .indexError then rightmoveLoop rest
      else .error e

/-- Body of the outer try block of scrape_rightmove, after the fetch
result is available. -/
def rightmoveParse (fetch : Except PyErr ScriptTag) : Except PyErr (List Property) := do
  let tag ← fetch
  match tag with
  | .missing => pure []
  | .presentUnparsable => throw .jsonDecodeError
  | .presentParsed data => do
    let props ← dictGet data "props" (.obj [])
    let pageProps ← dictGet props "pageProps" (.obj [])
    let results ← dictGet pageProps "results" (.obj [])
    let listings ← dictGet results "properties" (.arr [])
    if pyFalsy listings then pure []
    else do
      let xs ← pyIterate listings
      rightmoveLoop xs

/-- The outer except clause of the three scrapers catches only
requests.RequestException and returns the properties accumulated so
far, which is the empty list because the request happens before any
element is appended. -/
def catchRequestErr (r : Except PyErr (List Property)) : Except PyErr (List Property) :=
  match r with
  | .error .requestException => .ok []
  | r => r

/-- scrape_rightmove, as a function of the fetch outcome for its url.
The url argument itself is not inspected beyond being fetched. -/
def scrape_rightmove (url : String) (fetch : Except PyErr ScriptTag) :
    Except PyErr (List Property) :=
  let _ := url
  catchRequestErr (rightmoveParse fetch)

/-- One Zoopla listing element: the Property(...) construction in the
loop body of scrape_zoopla, argument by argument in source order. -/
def zooplaItem (l : Json) : Except PyErr Property := do
  let name ← dictGet l "title" (.str "N/A")
  let uris ← dictGet l "listingUris" (.obj [])
  let detail ← dictGet uris "detail" (.str "")
  let img ← dictGet l "image" (.obj [])
  let image ← dictGet img "url" (.str "")
  let pricing ← dictGet l "pricing" (.obj [])
  let price ← dictGet pricing "label" (.str "N/A")
  let beds ← dictGet l "beds" (.num 0)
  let baths ← dictGet l "baths" (.num 0)
  pure { name := name, link := "https://www.zoopla.co.uk" ++ pyStr detail,
         image := image, price := price, bedrooms := beds, bathrooms := baths,
         source := "Zoopla" }

/-- The per-listing loop of scrape_zoopla: same (KeyError, IndexError)
catch as the Rightmove loop. -/
def zooplaLoop : List Json → Except PyErr (List Property)
  | [] => .ok []
  | l :: rest =>
    match zooplaItem l with
    | .ok p =>
      match zooplaLoop rest with
      | .ok ps => .ok (p :: ps)
      | .error e => .error e
    | .error e =>
      if e = .keyError ∨ e = .indexError then zooplaLoop rest
      else .error e

/-- The part of scrape_zoopla from the search-results fetch onward. -/
def zooplaParse (fetch : Except PyErr ScriptTag) : Except PyErr (List Property) := do
  let tag ← fetch
  match tag with
  | .missing => pure []
  | .presentUnparsable => throw .jsonDecodeError
  | .presentParsed data => do
    let props ← dictGet data "props" (.obj [])
    let pageProps ← dictGet props "pageProps" (.obj [])
    let regular ← dictGet pageProps "regularListings" (.obj [])
    let listings ← dictGet regular "listings" (.arr [])
    if pyFalsy listings then pure []
    else do
      let xs ← pyIterate listings
      zooplaLoop xs

/-- The Zoopla homepage visited by the warm-up request. -/
def zooplaHomepage : String := "https://www.zoopla.co.uk/"

/-- scrape_zoopla with its issued GET requests made observable.
Inputs: the warm-up GET outcome (its response status is ignored by the
code, so an error-status response is just an .ok value; .error stands
for a raised RequestException) and the search fetch outcome. Returns
the list of urls actually requested, in order, together with the
returned property list or propagated exception. The warm-up request is
the first statement of the try block, so a warm-up exception jumps to
the except clause before the search url is ever requested. -/
def zooplaRun (url : String) (warm : Except PyErr Nat)
    (fetch : Except PyErr ScriptTag) :
    List String × Except PyErr (List Property) :=
  match warm with
  | .error e => ([zooplaHomepage], catchRequestErr (.error e))
  | .ok _ => ([zooplaHomepage, url], catchRequestErr (zooplaParse fetch))

/-- scrape_zoopla as seen by main: just the returned value. -/
def scrape_zoopla (url : String) (warm : Except PyErr Nat)
    (fetch : Except PyErr ScriptTag) : Except PyErr (List Property) :=
  (zooplaRun url warm fetch).2

/-- One OnTheMarket property card, abstracted to what the selectors in
the loop body observe: the text of the mandatory/optional tags when
the select_one call finds one, the href/src attribute of the link and
image tags (an inner none is a found tag lacking the attribute), and
the stripped text of the feature spans. -/
structure OtmCard where
  nameText : Option String
  priceText : Option String
  linkHref : Option (Option String)
  imgSrc : Option (Option String)
  featureTexts : List String
deriving Repr

/-- What the code observes of an OnTheMarket page: the no-results h1
is checked first; otherwise the properties-list container is looked
for; a found container yields its card list. -/
inductive OtmPage where
  | noResultsHeader
  | missingContainer
  | results (cards : List OtmCard)
deriving Repr

/-- Leftmost maximal digit run of a string, as an integer: the value
of int(re.search(r"\d+", text).group()), or none when re.search
returns None (no digit anywhere in the text). -/
def firstIntToken (s : String) : Option Nat :=
  digitRun (s.toList.dropWhile (fun c => !c.isDigit))
where
  digitVal (cs : List Char) : Nat :=
    cs.foldl (fun acc c => acc * 10 + (c.toNat - Char.toNat (Char.ofNat 48))) 0
  digitRun : List Char → Option Nat
    | [] => none
    | c :: rest =>
      if c.isDigit then some (digitVal ((c :: rest).takeWhile Char.isDigit))
      else none

/-- ASCII lowercasing of one character. -/
def lowerChar (c : Char) : Char :=
  if 65 ≤ c.toNat ∧ c.toNat ≤ 90 then Char.ofNat (c.toNat + 32) else c

/-- Python str.lower() on the ASCII feature texts. -/
def strToLower (s : String) : String :=
  String.mk (s.toList.map lowerChar)

/-- Substring containment, for the Python `"bed" in text` test. -/
def strContainsSub (hay sub : String) : Bool :=
  go hay.toList
where
  go : List Char → Bool
    | [] => sub.toList.isPrefixOf ([] : List Char)
    | c :: rest => sub.toList.isPrefixOf (c :: rest) || go rest

/-- One iteration of the feature loop: lowercase the stripped text; if
it mentions bed, replace beds with the first integer token (raising
AttributeError via .group() on None when the text has no digit); then
likewise for bath on the same text. -/
def featStep (bb : Nat × Nat) (ftext : String) : Except PyErr (Nat × Nat) :=
  let t := strToLower ftext
  let step1 : Except PyErr (Nat × Nat) :=
    if strContainsSub t "bed" then
      match firstIntToken t with
      | some n => .ok (n, bb.2)
      | none => .error .attributeError
    else .ok bb
  match step1 with
  | .error e => .error e
  | .ok bb1 =>
    if strContainsSub t "bath" then
      match firstIntToken t with
      | some n => .ok (bb1.1, n)
      | none => .error .attributeError
    else .ok bb1

/-- The feature for-loop of one card: fold featStep over the feature
texts, propagating its exception. -/
def featFold (bb : Nat × Nat) : List String → Except PyErr (Nat × Nat)
  | [] => .ok bb
  | t :: rest =>
    match featStep bb t with
    | .error e => .error e
    | .ok bb2 => featFold bb2 rest

/-- One card of the scrape_onthemarket loop body: select the four
tags, run the feature loop, then emit a Property only when name, price
and link all resolved; the link href access can raise KeyError, and a
found image tag lacking src raises KeyError; a missing image tag
defaults the image to the empty string. -/
def otmCardStep (card : OtmCard) : Except PyErr (Option Property) :=
  match featFold (0, 0) card.featureTexts with
  | .error e => .error e
  | .ok bb =>
    match card.nameText, card.priceText, card.linkHref with
    | some nm, some pr, some href? =>
      match href? with
      | none => .error .keyError
      | some href =>
        match card.imgSrc with
        | some none => .error .keyError
        | some (some s) =>
          .ok (some { name := .str nm,
                      link := "https://www.onthemarket.com" ++ href,
                      image := .str s, price := .str pr,
                      bedrooms := .num bb.1, bathrooms := .num bb.2,
                      source := "OnTheMarket" })
        | none =>
          .ok (some { name := .str nm,
                      link := "https://www.onthemarket.com" ++ href,
                      image := .str "", price := .str pr,
                      bedrooms := .num bb.1, bathrooms := .num bb.2,
                      source := "OnTheMarket" })
    | _, _, _ => .ok none

/-- The card loop of scrape_onthemarket: its except clause catches
(AttributeError, KeyError, TypeError, ValueError) and skips the card;
any other exception would propagate. -/
def otmLoop : List OtmCard → Except PyErr (List Property)
  | [] => .ok []
  | c :: rest =>
    match otmCardStep c with
    | .ok (some p) =>
      match otmLoop rest with
      | .ok ps => .ok (p :: ps)
      | .error e => .error e
    | .ok none => otmLoop rest
    | .error e =>
      if e = .attributeError ∨ e = .keyError ∨ e = .typeError ∨ e = .valueError then
        otmLoop rest
      else .error e

/-- Body of the outer try block of scrape_onthemarket. -/
def otmParse (fetch : Except PyErr OtmPage) : Except PyErr (List Property) := do
  let page ← fetch
  match page with
  | .noResultsHeader => pure []
  | .missingContainer => pure []
  | .results cards => otmLoop cards

/-- scrape_onthemarket, as a function of the fetch outcome. -/
def scrape_onthemarket (url : String) (fetch : Except PyErr OtmPage) :
    Except PyErr (List Property) :=
  let _ := url
  catchRequestErr (otmParse fetch)

/-- What the loading code observes of the sent_listings file: the file
may be missing (open raises FileNotFoundError), or its content is the
empty string (falsy), or json.loads fails on it, or json.loads yields
a JSON value. -/
inductive FileState where
  | missing
  | emptyContent
  | unparsableContent
  | parsedContent (j : Json)
deriving Repr

/-- Membership of a JSON value in a list, via jsonBEq. -/
def jsonMem (j : Json) : List Json → Bool
  | [] => false
  | x :: rest => jsonBEq j x || jsonMem j rest

/-- Deduplication of a list of JSON values, the underlying model of a
Python set of such values. -/
def jsonDedup : List Json → List Json
  | [] => []
  | x :: rest =>
    let r := jsonDedup rest
    if jsonMem x r then r else x :: r

/-- Python hashability of a JSON value: lists and dicts are
unhashable, everything else in the JSON fragment is hashable. -/
def jsonHashable : Json → Bool
  | .arr _ => false
  | .obj _ => false
  | _ => true

/-- Python set(v) on a JSON value: iterate v (TypeError on
non-iterables), require every element hashable (TypeError otherwise),
and collect the distinct elements. -/
def pySet (j : Json) : Except PyErr (List Json) :=
  match pyIterate j with
  | .error e => .error e
  | .ok xs =>
    if xs.all jsonHashable then .ok (jsonDedup xs)
    else .error .typeError

/-- load_sent_listings: open and read the file (FileNotFoundError is
caught and yields the empty set), return the empty set on empty
content, and otherwise set(json.loads(content)) where a JSONDecodeError
is caught and yields the empty set; any other exception, such as the
TypeError raised by set() on a non-iterable parse result, propagates
because the except clause names only (FileNotFoundError,
JSONDecodeError). -/
def load_sent_listings : FileState → Except PyErr (List Json)
  | .missing => .ok []
  | .emptyContent => .ok []
  | .unparsableContent => .ok []
  | .parsedContent j => pySet j

/-- save_sent_listings: json.dump(list(urls)) overwrites the file with
a JSON array holding the distinct url strings. The argument list
stands for the Python set, so its elements are pairwise distinct. -/
def save_sent_listings (urls : List String) : FileState :=
  .parsedContent (.arr (urls.map .str))

/-- Observable effects of one main() invocation. sourcesFetched
records whether the three scrape calls were reached; notifiedProps is
the list of properties for which send_discord_notification was
invoked, in order (a delivery failure is caught inside the notifier
and changes nothing observable here); storeLoaded records whether
load_sent_listings was called; storeSaved is the set of links written
by save_sent_listings, or none when save was never reached. -/
structure RunEffects where
  sourcesFetched : Bool
  notifiedProps : List Property
  storeLoaded : Bool
  storeSaved : Option (List String)
deriving Repr

/-- Python falsiness of the os.getenv result: None when the variable
is unset, otherwise the string, with the empty string falsy. -/
def envFalsy : Option String → Bool
  | none => true
  | some s => s.isEmpty

/-- The three scrape calls of main, combined with list.extend in
source order; an exception from any scraper propagates and aborts
main. -/
def combinedListings (rm : Except PyErr ScriptTag) (zwarm : Except PyErr Nat)
    (zfetch : Except PyErr ScriptTag) (otm : Except PyErr OtmPage) :
    Except PyErr (List Property) :=
  match scrape_rightmove "rightmove-url" rm with
  | .error e => .error e
  | .ok l1 =>
    match scrape_zoopla "zoopla-url" zwarm zfetch with
    | .error e => .error e
    | .ok l2 =>
      match scrape_onthemarket "onthemarket-url" otm with
      | .error e => .error e
      | .ok l3 => .ok (l1 ++ l2 ++ l3)

/-- The set comprehension building current_urls, modelled as the
distinct links in order of last occurrence. -/
def linkSet (ps : List Property) : List String :=
  (ps.map Property.link).dedup

/-- main(): abort (returning with no effects) when the webhook env var
is unset or empty; otherwise fetch and extract all three sources; if
the combined list is empty, save the empty set without ever loading
the store; otherwise load the store, notify exactly the fetched
properties whose link is not in the loaded set, and save the set of
fetched links in place of the old store. -/
def main (env : Option String) (rm : Except PyErr ScriptTag)
    (zwarm : Except PyErr Nat) (zfetch : Except PyErr ScriptTag)
    (otm : Except PyErr OtmPage) (store : FileState) :
    Except PyErr RunEffects :=
  if envFalsy env then
    .ok { sourcesFetched := false, notifiedProps := [], storeLoaded := false,
          storeSaved := none }
  else
    match combinedListings rm zwarm zfetch otm with
    | .error e => .error e
    | .ok allListings =>
      if allListings.isEmpty then
        .ok { sourcesFetched := true, notifiedProps := [], storeLoaded := false,
              storeSaved := some [] }
      else
        match load_sent_listings store with
        | .error e => .error e
        | .ok sentUrls =>
          .ok { sourcesFetched := true,
                notifiedProps := allListings.filter
                  (fun p => !(jsonMem (.str p.link) sentUrls)),
                storeLoaded := true, storeSaved := some (linkSet allListings) }

/-- Notifications attempted for a given link in a run. -/
def notifyCount (r : Except PyErr RunEffects) (link : String) : Nat :=
  match r with
  | .ok eff => (eff.notifiedProps.filter (fun p => p.link = link)).length
  | .error _ => 0

/-! Concrete fixtures used by witnesses and counterexamples. -/

/-- Wrap a listings array in the Rightmove NEXT_DATA key path
props.pageProps.results.properties. -/
def rmWrap (listings : List Json) : Json :=
  .obj [("props", .obj [("pageProps", .obj [("results", .obj
    [("properties", .arr listings)])])])]

/-- A well-formed Rightmove listing element. -/
def rmListingOne : Json :=
  .obj [("displayAddress", .str "1 Test Street"),
        ("propertyUrl", .str "/properties/1.html")]

/-- A second well-formed Rightmove listing element. -/
def rmListingTwo : Json :=
  .obj [("displayAddress", .str "2 Test Street"),
        ("propertyUrl", .str "/properties/2.html")]

/-- The Property produced from rmListingOne. -/
def rmPropOne : Property :=
  { name := .str "1 Test Street",
    link := "https://www.rightmove.co.uk/properties/1.html",
    image := .str "", price := .str "N/A", bedrooms := .num 0,
    bathrooms := .num 0, source := "Rightmove" }

/-- The Property produced from rmListingTwo. -/
def rmPropTwo : Property :=
  { name := .str "2 Test Street",
    link := "https://www.rightmove.co.uk/properties/2.html",
    image := .str "", price := .str "N/A", bedrooms := .num 0,
    bathrooms := .num 0, source := "Rightmove" }

/-- A Rightmove listing whose price.displayPrices array is present but
empty, so indexing it with [0] raises IndexError. -/
def rmListingEmptyPrices : Json :=
  .obj [("price", .obj [("displayPrices", .arr [])])]

/-- Oracle inputs that make Zoopla and OnTheMarket contribute zero
records: the Zoopla warm-up raises a RequestException (caught by the
outer handler) and OnTheMarket serves its no-results page. -/
def zwQuiet : Except PyErr Nat := .error .requestException

def zfQuiet : Except PyErr ScriptTag := .ok .missing

def otmQuiet : Except PyErr OtmPage := .ok .noResultsHeader

/-- Wrap a listings array in the Zoopla NEXT_DATA key path
props.pageProps.regularListings.listings. -/
def zpWrap (listings : List Json) : Json :=
  .obj [("props", .obj [("pageProps", .obj [("regularListings", .obj
    [("listings", .arr listings)])])])]

/-! Helper lemmas. -/

theorem jsonMem_str_map_eq_false {a : String} {l : List String} (h : a ∉ l) :
    jsonMem (.str a) (l.map .str) = false := by
  induction l with
  | nil => rfl
  | cons b rest ih =>
    have hab : (a == b) = false :=
      beq_eq_false_iff_ne.mpr (fun e => h (e ▸ List.mem_cons_self b rest))
    have h2 : a ∉ rest := fun m => h (List.mem_cons_of_mem _ m)
    simp [jsonMem, jsonBEq, hab, ih h2]

theorem jsonDedup_str_map {l : List String} (h : l.Nodup) :
    jsonDedup (l.map .str) = l.map .str := by
  induction l with
  | nil => rfl
  | cons b rest ih =>
    have hb : b ∉ rest := (List.nodup_cons.mp h).1
    have hr := ih (List.nodup_cons.mp h).2
    simp [jsonDedup, hr, jsonMem_str_map_eq_false hb]

theorem all_hashable_str_map (l : List String) :
    (l.map Json.str).all jsonHashable = true := by
  induction l with
  | nil => rfl
  | cons b rest ih => simp [jsonHashable, ih]

theorem isEmpty_eq_false_of_ne_nil {α : Type} {l : List α} (h : l ≠ []) :
    l.isEmpty = false := by
  cases l with
  | nil => exact absurd rfl h
  | cons a t => rfl

/-- Evaluation of main on a run with a truthy webhook, a successful
nonempty combined fetch, and a successful store load. -/
theorem main_run_eq {env : Option String} {rm : Except PyErr ScriptTag}
    {zwarm : Except PyErr Nat} {zfetch : Except PyErr ScriptTag}
    {otm : Except PyErr OtmPage} {store : FileState}
    {allL : List Property} {sent : List Json}
    (henv : envFalsy env = false)
    (hall : combinedListings rm zwarm zfetch otm = .ok allL)
    (hne : allL ≠ [])
    (hload : load_sent_listings store = .ok sent) :
    main env rm zwarm zfetch otm store =
      .ok { sourcesFetched := true,
            notifiedProps := allL.filter (fun p => !(jsonMem (.str p.link) sent)),
            storeLoaded := true, storeSaved := some (linkSet allL) } := by
  unfold main
  rw [henv, hall, hload]
  simp [isEmpty_eq_false_of_ne_nil hne]

/-- Evaluation of main when the combined fetch is empty. -/
theorem main_empty_eq {env : Option String} {rm : Except PyErr ScriptTag}
    {zwarm : Except PyErr Nat} {zfetch : Except PyErr ScriptTag}
    {otm : Except PyErr OtmPage} {store : FileState}
    (henv : envFalsy env = false)
    (hall : combinedListings rm zwarm zfetch otm = .ok []) :
    main env rm zwarm zfetch otm store =
      .ok { sourcesFetched := true, notifiedProps := [], storeLoaded := false,
            storeSaved := some [] } := by
  unfold main
  rw [henv, hall]
  simp

/-- Evaluation of main when loading the store raises. -/
theorem main_load_error_eq {env : Option String} {rm : Except PyErr ScriptTag}
    {zwarm : Except PyErr Nat} {zfetch : Except PyErr ScriptTag}
    {otm : Except PyErr OtmPage} {store : FileState}
    {allL : List Property} {e : PyErr}
    (henv : envFalsy env = false)
    (hall : combinedListings rm zwarm zfetch otm = .ok allL)
    (hne : allL ≠ [])
    (hload : load_sent_listings store = .error e) :
    main env rm zwarm zfetch otm store = .error e := by
  unfold main
  rw [henv, hall, hload]
  simp [isEmpty_eq_false_of_ne_nil hne]

/-! Claims. -/

/-- A Rightmove page oracle yielding the two distinct listings. -/
def rmTwoPage : Except PyErr ScriptTag :=
  .ok (.presentParsed (rmWrap [rmListingOne, rmListingTwo]))

/-- A Rightmove page oracle yielding the same listing twice. -/
def rmDupPage : Except PyErr ScriptTag :=
  .ok (.presentParsed (rmWrap [rmListingOne, rmListingOne]))

/-- A card whose mandatory selectors all resolve but whose feature
text contains bed without any digit. -/
def otmBedNoDigitCard : OtmCard :=
  { nameText := some "1 High Street", priceText := some "1000 pcm",
    linkHref := some (some "/details/1"), imgSrc := none,
    featureTexts := ["bed"] }

/-- A fully well-formed card without an image tag. -/
def otmGoodCard : OtmCard :=
  { nameText := some "1 High Street", priceText := some "1000 pcm",
    linkHref := some (some "/details/1"), imgSrc := none,
    featureTexts := ["2 bedrooms", "1 bathroom"] }

/-- A store file holding exactly the link of rmPropOne. -/
def storeWithOne : FileState :=
  .parsedContent (.arr [.str "https://www.rightmove.co.uk/properties/1.html"])

/-- C2: in a run with a truthy webhook, at least one fetched record
and a successful store load, the notified records are exactly the
fetched records whose link is absent from the loaded store; in
particular no record whose link is in the loaded store is notified. -/
theorem main_notifies_only_unseen_links {env : Option String}
    {rm : Except PyErr ScriptTag} {zwarm : Except PyErr Nat}
    {zfetch : Except PyErr ScriptTag} {otm : Except PyErr OtmPage}
    {store : FileState} {allL : List Property} {sent : List Json}
    (henv : envFalsy env = false)
    (hall : combinedListings rm zwarm zfetch otm = .ok allL)
    (hne : allL ≠ [])
    (hload : load_sent_listings store = .ok sent) :
    ∃ eff, main env rm zwarm zfetch otm store = .ok eff ∧
      eff.notifiedProps = allL.filter (fun p => !(jsonMem (.str p.link) sent)) ∧
      ∀ p ∈ eff.notifiedProps, jsonMem (.str p.link) sent = false := by
  refine ⟨_, main_run_eq henv hall hne hload, rfl, ?_⟩
  intro p hp
  have h2 := (List.mem_filter.mp hp).2
  simpa using h2

/-- Witness for C2, at the scenario of the specification: the store
already holds the first link, both listings are fetched, and only the
second is notified. -/
theorem main_notifies_only_unseen_links_witness :
    envFalsy (some "webhook") = false ∧
    combinedListings rmTwoPage zwQuiet zfQuiet otmQuiet =
      .ok [rmPropOne, rmPropTwo] ∧
    ([rmPropOne, rmPropTwo] : List Property) ≠ [] ∧
    load_sent_listings storeWithOne =
      .ok [.str "https://www.rightmove.co.uk/properties/1.html"] ∧
    ∃ eff, main (some "webhook") rmTwoPage zwQuiet zfQuiet otmQuiet storeWithOne
        = .ok eff ∧
      eff.notifiedProps = [rmPropOne, rmPropTwo].filter
        (fun p => !(jsonMem (.str p.link)
          [.str "https://www.rightmove.co.uk/properties/1.html"])) ∧
      ∀ p ∈ eff.notifiedProps,
        jsonMem (.str p.link)
          [.str "https://www.rightmove.co.uk/properties/1.html"] = false :=
  ⟨rfl, rfl, by simp, rfl,
    main_notifies_only_unseen_links rfl rfl (by simp) rfl⟩

/-- C3: in any run with a truthy webhook that completes (reaching the
final persist), the saved store is exactly the set of links of the
records fetched in that run, independent of the prior store contents:
a link is in the saved set iff some fetched record bears it, and an
empty fetch saves the empty set. -/
theorem main_saves_exactly_current_links {env : Option String}
    {rm : Except PyErr ScriptTag} {zwarm : Except PyErr Nat}
    {zfetch : Except PyErr ScriptTag} {otm : Except PyErr OtmPage}
    {store : FileState} {eff : RunEffects} {allL : List Property}
    (henv : envFalsy env = false)
    (hall : combinedListings rm zwarm zfetch otm = .ok allL)
    (hmain : main env rm zwarm zfetch otm store = .ok eff) :
    ∃ w, eff.storeSaved = some w ∧
      ∀ s, s ∈ w ↔ s ∈ allL.map Property.link := by
  by_cases hne : allL = []
  · subst hne
    rw [main_empty_eq henv hall] at hmain
    cases hmain
    exact ⟨[], rfl, by simp⟩
  · cases hload : load_sent_listings store with
    | error e =>
      rw [main_load_error_eq henv hall hne hload] at hmain
      cases hmain
    | ok sent =>
      rw [main_run_eq henv hall hne hload] at hmain
      cases hmain
      exact ⟨linkSet allL, rfl, fun s => by simp [linkSet]⟩

/-- Witness for C3: a run over the two-listing page, starting from a
missing store file, saves exactly the two fetched links. -/
theorem main_saves_exactly_current_links_witness :
    envFalsy (some "webhook") = false ∧
    combinedListings rmTwoPage zwQuiet zfQuiet otmQuiet =
      .ok [rmPropOne, rmPropTwo] ∧
    main (some "webhook") rmTwoPage zwQuiet zfQuiet otmQuiet .missing =
      .ok { sourcesFetched := true, notifiedProps := [rmPropOne, rmPropTwo],
            storeLoaded := true,
            storeSaved := some (linkSet [rmPropOne, rmPropTwo]) } ∧
    ∃ w, RunEffects.storeSaved
        { sourcesFetched := true, notifiedProps := [rmPropOne, rmPropTwo],
          storeLoaded := true,
          storeSaved := some (linkSet [rmPropOne, rmPropTwo]) } = some w ∧
      ∀ s, s ∈ w ↔ s ∈ [rmPropOne, rmPropTwo].map Property.link :=
  ⟨rfl, rfl, rfl,
    main_saves_exactly_current_links
      (show envFalsy (some "webhook") = false from rfl)
      (show combinedListings rmTwoPage zwQuiet zfQuiet otmQuiet =
        .ok [rmPropOne, rmPropTwo] from rfl)
      (show main (some "webhook") rmTwoPage zwQuiet zfQuiet otmQuiet .missing =
        .ok { sourcesFetched := true, notifiedProps := [rmPropOne, rmPropTwo],
              storeLoaded := true,
              storeSaved := some (linkSet [rmPropOne, rmPropTwo]) } from rfl)⟩

theorem filter_filter_length_le (pr q : Property → Bool) (l : List Property) :
    ((l.filter pr).filter q).length ≤ (l.filter q).length :=
  ((List.filter_sublist l (p := pr)).filter q).length_le

theorem length_filter_link_le_one {l : List Property} (L : String)
    (hnd : (l.map Property.link).Nodup) :
    (l.filter (fun p => p.link = L)).length ≤ 1 := by
  induction l with
  | nil => simp
  | cons a t ih =>
    have ha : a.link ∉ t.map Property.link := (List.nodup_cons.mp hnd).1
    have ht := ih (List.nodup_cons.mp hnd).2
    by_cases h : a.link = L
    · have hnil : t.filter (fun p => decide (p.link = L)) = [] := by
        rw [List.filter_eq_nil_iff]
        intro p hp
        simp only [decide_eq_true_eq]
        intro heq
        exact ha (h ▸ heq ▸ List.mem_map_of_mem Property.link hp)
      simp [List.filter_cons, h, hnil]
    · simpa [List.filter_cons, h] using ht

/-- C1 counterexample: a run whose combined fetch holds two records
with the same link, that link absent from the loaded store, sends two
notifications for that one link. -/
theorem duplicate_link_notified_twice :
    combinedListings rmDupPage zwQuiet zfQuiet otmQuiet =
      .ok [rmPropOne, rmPropOne] ∧
    load_sent_listings .emptyContent = .ok [] ∧
    notifyCount
      (main (some "webhook") rmDupPage zwQuiet zfQuiet otmQuiet .emptyContent)
      "https://www.rightmove.co.uk/properties/1.html" = 2 :=
  ⟨rfl, rfl, rfl⟩

/-- C1 amended: one notification is attempted per new record
occurrence, not per link, so the at-most-once-per-link guarantee holds
exactly when the combined fetched sequence contains no two records
with equal link: under that hypothesis, every link gets at most one
notification in the run. -/
theorem at_most_one_notification_per_distinct_link {env : Option String}
    {rm : Except PyErr ScriptTag} {zwarm : Except PyErr Nat}
    {zfetch : Except PyErr ScriptTag} {otm : Except PyErr OtmPage}
    {store : FileState} {allL : List Property}
    (hall : combinedListings rm zwarm zfetch otm = .ok allL)
    (hnd : (allL.map Property.link).Nodup) (L : String) :
    notifyCount (main env rm zwarm zfetch otm store) L ≤ 1 := by
  by_cases henv : envFalsy env = true
  · simp [main, henv, notifyCount]
  · have henv2 : envFalsy env = false := by simpa using henv
    by_cases hne : allL = []
    · subst hne
      rw [main_empty_eq henv2 hall]
      simp [notifyCount]
    · cases hload : load_sent_listings store with
      | error e =>
        rw [main_load_error_eq henv2 hall hne hload]
        simp [notifyCount]
      | ok sent =>
        rw [main_run_eq henv2 hall hne hload]
        calc ((allL.filter
                (fun p => !(jsonMem (.str p.link) sent))).filter
                (fun p => p.link = L)).length
            ≤ (allL.filter (fun p => p.link = L)).length :=
              filter_filter_length_le _ _ allL
          _ ≤ 1 := length_filter_link_le_one L hnd

/-- Witness for C1 amended: a run fetching two records with distinct
links notifies the first link at most once. -/
theorem at_most_one_notification_witness :
    combinedListings rmTwoPage zwQuiet zfQuiet otmQuiet =
      .ok [rmPropOne, rmPropTwo] ∧
    ([rmPropOne, rmPropTwo].map Property.link).Nodup ∧
    notifyCount
      (main (some "webhook") rmTwoPage zwQuiet zfQuiet otmQuiet .emptyContent)
      "https://www.rightmove.co.uk/properties/1.html" ≤ 1 :=
  ⟨rfl, by decide,
    at_most_one_notification_per_distinct_link
      (show combinedListings rmTwoPage zwQuiet zfQuiet otmQuiet =
        .ok [rmPropOne, rmPropTwo] from rfl)
      (by decide) "https://www.rightmove.co.uk/properties/1.html"⟩

/-- C9: with the webhook environment variable unset, main returns
immediately: no source fetch is attempted, nothing is notified, and
the store file is neither read nor written, whatever the transport and
file oracles would have produced. -/
theorem main_unset_webhook_is_noop (rm : Except PyErr ScriptTag)
    (zwarm : Except PyErr Nat) (zfetch : Except PyErr ScriptTag)
    (otm : Except PyErr OtmPage) (store : FileState) :
    main none rm zwarm zfetch otm store =
      .ok { sourcesFetched := false, notifiedProps := [], storeLoaded := false,
            storeSaved := none } := rfl

/-- C4: contrary to the never-raises extractor contract, a page whose
NEXT_DATA script tag is present but whose text content fails to parse
as JSON makes json.loads raise a JSONDecodeError that no except clause
of scrape_rightmove names, so the exception propagates to the caller;
through main it even aborts the whole run before any store write. -/
theorem scrape_rightmove_raises_on_unparsable_json :
    scrape_rightmove "rightmove-url" (.ok .presentUnparsable) =
      .error .jsonDecodeError ∧
    main (some "webhook") (.ok .presentUnparsable) zwQuiet zfQuiet otmQuiet
      .missing = .error .jsonDecodeError :=
  ⟨rfl, rfl⟩

/-- C5 counterexample: a store file whose content parses as the JSON
number 5 makes set(json.loads(content)) raise a TypeError, which the
except clause of load_sent_listings does not name, so load raises to
its caller instead of returning the empty set. -/
theorem load_raises_on_number_content :
    load_sent_listings (.parsedContent (.num 5)) = .error .typeError := rfl

/-- C5 amended: load_sent_listings returns the empty set, without
raising, when the file is missing, its content is empty, or the
content fails to parse as JSON; but content that parses to a
non-iterable JSON value such as a number raises TypeError. -/
theorem load_graceful_and_typeerror_cases :
    load_sent_listings .missing = .ok [] ∧
    load_sent_listings .emptyContent = .ok [] ∧
    load_sent_listings .unparsableContent = .ok [] ∧
    ∀ n : Int, load_sent_listings (.parsedContent (.num n)) = .error .typeError :=
  ⟨rfl, rfl, rfl, fun _ => rfl⟩

/-- C6 counterexample: when the warm-up GET to the Zoopla homepage
raises a RequestException, the except clause is entered before the
search request is ever issued: the run requests only the homepage and
returns zero listings, even though the search fetch oracle held a
listing; so the search request is not issued regardless of the
warm-up outcome. -/
theorem zoopla_warmup_exception_skips_search :
    zooplaRun "zoopla-url" (.error .requestException)
      (.ok (.presentParsed (zpWrap [.obj []]))) = ([zooplaHomepage], .ok []) ∧
    "zoopla-url" ∉ [zooplaHomepage] :=
  ⟨rfl, by decide⟩

/-- C6 amended: when the warm-up GET completes without raising, with
any response status (its status is never checked), the search request
is issued next; when the warm-up raises a RequestException, the
extractor returns zero listings without issuing the search request. -/
theorem zoopla_warmup_dichotomy :
    (∀ (u : String) (n : Nat) (f : Except PyErr ScriptTag),
      (zooplaRun u (.ok n) f).1 = [zooplaHomepage, u]) ∧
    (∀ (u : String) (f : Except PyErr ScriptTag),
      zooplaRun u (.error .requestException) f = ([zooplaHomepage], .ok [])) :=
  ⟨fun _ _ _ => rfl, fun _ _ => rfl⟩

theorem rightmoveLoop_all_ok {xs : List Json}
    (h : ∀ l ∈ xs, ∃ p, rightmoveItem l = .ok p) :
    ∃ ps, rightmoveLoop xs = .ok ps ∧ ps.length = xs.length := by
  induction xs with
  | nil => exact ⟨[], rfl, rfl⟩
  | cons a t ih =>
    obtain ⟨p, hp⟩ := h a (List.mem_cons_self a t)
    obtain ⟨ps, hps, hlen⟩ := ih (fun l hl => h l (List.mem_cons_of_mem a hl))
    exact ⟨p :: ps, by simp [rightmoveLoop, hp, hps], by simp [hlen]⟩

/-- C7 counterexample: the per-element except clause names only
(KeyError, IndexError), but a non-dictionary element makes the very
first .get call raise AttributeError, which propagates out of the loop
and out of scrape_rightmove entirely, instead of that one element
being skipped: one well-formed listing next to the number 5 yields a
raised AttributeError, while the same page without the malformed
element yields the one record. -/
theorem nondict_element_aborts_rightmove :
    scrape_rightmove "rightmove-url"
      (.ok (.presentParsed (rmWrap [rmListingOne, .num 5]))) =
      .error .attributeError ∧
    scrape_rightmove "rightmove-url"
      (.ok (.presentParsed (rmWrap [rmListingOne]))) = .ok [rmPropOne] :=
  ⟨rfl, rfl⟩

/-- C7 amended: the Rightmove element loop does skip a malformed
element and keep the other N records, but only when that element fails
with a KeyError or IndexError (for example an empty displayPrices
array); a non-dictionary element instead raises AttributeError, which
the loop does not catch. -/
theorem keyindex_failing_element_skipped (pre post : List Json) (bad : Json)
    (hgood : ∀ l ∈ pre ++ post, ∃ p, rightmoveItem l = .ok p)
    (hbad : rightmoveItem bad = .error .keyError ∨
      rightmoveItem bad = .error .indexError) :
    ∃ ps, rightmoveLoop (pre ++ bad :: post) = .ok ps ∧
      ps.length = (pre ++ post).length := by
  induction pre with
  | nil =>
    obtain ⟨ps, hps, hlen⟩ := rightmoveLoop_all_ok (by simpa using hgood)
    refine ⟨ps, ?_, by simpa using hlen⟩
    cases hbad with
    | inl h => simp [rightmoveLoop, h, hps]
    | inr h => simp [rightmoveLoop, h, hps]
  | cons a t ih =>
    obtain ⟨p, hp⟩ := hgood a (List.mem_cons_self a (t ++ post))
    obtain ⟨ps, hps, hlen⟩ :=
      ih (fun l hl => hgood l (List.mem_cons_of_mem a hl))
    exact ⟨p :: ps, by simp [rightmoveLoop, hp, hps], by simp [hlen]⟩

/-- Witness for C7 amended: one well-formed listing next to one
element whose displayPrices array is empty (IndexError) yields exactly
the one good record. -/
theorem keyindex_failing_element_skipped_witness :
    (∀ l ∈ ([rmListingOne] : List Json) ++ [], ∃ p, rightmoveItem l = .ok p) ∧
    (rightmoveItem rmListingEmptyPrices = .error .keyError ∨
      rightmoveItem rmListingEmptyPrices = .error .indexError) ∧
    ∃ ps, rightmoveLoop ([rmListingOne] ++ rmListingEmptyPrices :: []) = .ok ps ∧
      ps.length = (([rmListingOne] : List Json) ++ []).length :=
  ⟨fun l hl => by
      simp only [List.append_nil, List.mem_singleton] at hl
      exact hl ▸ ⟨rmPropOne, rfl⟩,
    Or.inr rfl,
    keyindex_failing_element_skipped [rmListingOne] [] rmListingEmptyPrices
      (fun l hl => by
        simp only [List.append_nil, List.mem_singleton] at hl
        exact hl ▸ ⟨rmPropOne, rfl⟩)
      (Or.inr rfl)⟩

/-- No exception arises from one feature text: whenever its lowered
text contains bed or bath, it also contains a digit for re.search to
find. -/
def featOk (t : String) : Bool :=
  ((!(strContainsSub (strToLower t) "bed")) || (firstIntToken (strToLower t)).isSome) &&
  ((!(strContainsSub (strToLower t) "bath")) || (firstIntToken (strToLower t)).isSome)

/-- The whole feature loop of a card raises no exception. -/
def otmFeatureScanOk (c : OtmCard) : Bool := c.featureTexts.all featOk

/-- The attribute accesses of a card raise no exception: a found link
tag has an href and a found image tag has a src. -/
def otmAttrsOk (c : OtmCard) : Bool :=
  (match c.linkHref with
   | some none => false
   | _ => true) &&
  (match c.imgSrc with
   | some none => false
   | _ => true)

/-- The three mandatory selectors of a card all resolved. -/
def otmMandatory (c : OtmCard) : Bool :=
  c.nameText.isSome && c.priceText.isSome && c.linkHref.isSome

/-- The image url an emitted card carries: the src of the found image
tag, or the empty-string default when the tag is absent. -/
def imgStr (c : OtmCard) : String :=
  match c.imgSrc with
  | some (some s) => s
  | _ => ""

theorem featStep_ok (bb : Nat × Nat) (t : String) (h : featOk t = true) :
    ∃ bb2, featStep bb t = .ok bb2 := by
  cases htok : firstIntToken (strToLower t) with
  | some n =>
    cases hbed : strContainsSub (strToLower t) "bed" <;>
      cases hbath : strContainsSub (strToLower t) "bath" <;>
      simp [featStep, htok, hbed, hbath]
  | none =>
    unfold featOk at h
    rw [htok] at h
    simp only [Option.isSome_none, Bool.or_false, Bool.and_eq_true,
      Bool.not_eq_true'] at h
    exact ⟨bb, by simp [featStep, h.1, h.2]⟩

theorem featFold_ok (ts : List String) (bb : Nat × Nat)
    (h : ts.all featOk = true) : ∃ bb2, featFold bb ts = .ok bb2 := by
  induction ts generalizing bb with
  | nil => exact ⟨bb, rfl⟩
  | cons t rest ih =>
    rw [List.all_cons, Bool.and_eq_true] at h
    obtain ⟨bb1, hbb1⟩ := featStep_ok bb t h.1
    obtain ⟨bb2, hbb2⟩ := ih bb1 h.2
    exact ⟨bb2, by simp [featFold, hbb1, hbb2]⟩

theorem featStep_err {bb : Nat × Nat} {t : String} {e : PyErr}
    (h : featStep bb t = .error e) : e = .attributeError := by
  cases hbed : strContainsSub (strToLower t) "bed" <;>
    cases hbath : strContainsSub (strToLower t) "bath" <;>
    cases htok : firstIntToken (strToLower t) <;>
    simp [featStep, hbed, hbath, htok] at h <;>
    exact h.symm

theorem featFold_err {ts : List String} {bb : Nat × Nat} {e : PyErr}
    (h : featFold bb ts = .error e) : e = .attributeError := by
  induction ts generalizing bb with
  | nil => simp [featFold] at h
  | cons t rest ih =>
    unfold featFold at h
    cases hstep : featStep bb t with
    | error e2 =>
      rw [hstep] at h
      cases h
      exact featStep_err hstep
    | ok bb2 =>
      rw [hstep] at h
      exact ih h

theorem otmCardStep_err {c : OtmCard} {e : PyErr}
    (h : otmCardStep c = .error e) :
    e = .attributeError ∨ e = .keyError := by
  unfold otmCardStep at h
  cases hf : featFold (0, 0) c.featureTexts with
  | error e2 =>
    rw [hf] at h
    cases h
    exact Or.inl (featFold_err hf)
  | ok bb =>
    rw [hf] at h
    rcases hn : c.nameText with _ | nm <;> rw [hn] at h <;>
      rcases hp : c.priceText with _ | pr <;> rw [hp] at h <;>
      rcases hl : c.linkHref with _ | href? <;> rw [hl] at h
    all_goals first
      | cases h
      | (rcases href? with _ | href
         · cases h; exact Or.inr rfl
         · rcases hi : c.imgSrc with _ | src? <;> rw [hi] at h
           · cases h
           · rcases src? with _ | s
             · cases h; exact Or.inr rfl
             · cases h)

theorem otmLoop_total (cards : List OtmCard) :
    ∃ ps, otmLoop cards = .ok ps := by
  induction cards with
  | nil => exact ⟨[], rfl⟩
  | cons c rest ih =>
    obtain ⟨ps, hps⟩ := ih
    cases hstep : otmCardStep c with
    | ok r =>
      cases r with
      | some p => exact ⟨p :: ps, by simp [otmLoop, hstep, hps]⟩
      | none => exact ⟨ps, by simp [otmLoop, hstep, hps]⟩
    | error e =>
      refine ⟨ps, ?_⟩
      unfold otmLoop
      rw [hstep]
      rcases otmCardStep_err hstep with h | h <;> subst h <;> simp [hps]

theorem otmCardStep_missing {c : OtmCard} {bb : Nat × Nat}
    (hbb : featFold (0, 0) c.featureTexts = .ok bb)
    (hm : otmMandatory c = false) : otmCardStep c = .ok none := by
  unfold otmCardStep
  rw [hbb]
  unfold otmMandatory at hm
  rcases hn : c.nameText with _ | nm <;>
    rcases hp : c.priceText with _ | pr <;>
    rcases hl : c.linkHref with _ | href? <;>
    simp [hn, hp, hl] at hm ⊢

theorem otmCardStep_emit {c : OtmCard} {bb : Nat × Nat} {nm pr href : String}
    (hbb : featFold (0, 0) c.featureTexts = .ok bb)
    (hn : c.nameText = some nm) (hp : c.priceText = some pr)
    (hl : c.linkHref = some (some href))
    (hi : c.imgSrc = none ∨ ∃ s, c.imgSrc = some (some s)) :
    otmCardStep c = .ok (some
      { name := .str nm, link := "https://www.onthemarket.com" ++ href,
        image := .str (imgStr c), price := .str pr,
        bedrooms := .num bb.1, bathrooms := .num bb.2,
        source := "OnTheMarket" }) := by
  unfold otmCardStep
  rw [hbb]
  rcases hi with hi | ⟨s, hi⟩ <;> simp [hn, hp, hl, hi, imgStr]

theorem otm_mandatory_extract {c : OtmCard} (ha : otmAttrsOk c = true)
    (hm : otmMandatory c = true) :
    ∃ nm pr href, c.nameText = some nm ∧ c.priceText = some pr ∧
      c.linkHref = some (some href) ∧
      (c.imgSrc = none ∨ ∃ s, c.imgSrc = some (some s)) := by
  unfold otmMandatory at hm
  rw [Bool.and_eq_true, Bool.and_eq_true] at hm
  obtain ⟨nm, hn⟩ := Option.isSome_iff_exists.mp hm.1.1
  obtain ⟨pr, hp⟩ := Option.isSome_iff_exists.mp hm.1.2
  obtain ⟨href?, hl⟩ := Option.isSome_iff_exists.mp hm.2
  unfold otmAttrsOk at ha
  rw [Bool.and_eq_true] at ha
  rcases href? with _ | href
  · rw [hl] at ha
    simp at ha
  · refine ⟨nm, pr, href, hn, hp, hl, ?_⟩
    rcases hi : c.imgSrc with _ | src?
    · exact Or.inl rfl
    · rcases src? with _ | s
      · rw [hi] at ha
        simp at ha
      · exact Or.inr ⟨s, rfl⟩

/-- C8 counterexample: on this card the name, price and link selectors
all resolve, yet no record is emitted, because a feature span whose
text contains bed but no digit makes re.search return None and .group()
raise AttributeError before the mandatory check, so the card-level
except skips the whole card. -/
theorem mandatory_card_dropped_on_feature_error :
    otmMandatory otmBedNoDigitCard = true ∧
    scrape_onthemarket "onthemarket-url"
      (.ok (.results [otmBedNoDigitCard])) = .ok [] :=
  ⟨rfl, rfl⟩

/-- C8 amended: under the extra hypothesis that the card raises no
exception (every bed/bath feature text carries a digit, a found link
tag has an href, a found image tag has a src), a record is emitted iff
name, price and link all resolved; a card missing a mandatory field is
silently dropped; missing image data defaults to the empty string and
absent feature data defaults both counts to zero; and the card loop
never fails the whole page. -/
theorem otm_card_emission (c : OtmCard)
    (hf : otmFeatureScanOk c = true) (ha : otmAttrsOk c = true) :
    ((∃ p, otmCardStep c = .ok (some p)) ↔ otmMandatory c = true) ∧
    (otmMandatory c = false → otmCardStep c = .ok none) ∧
    (c.imgSrc = none → ∀ p, otmCardStep c = .ok (some p) → p.image = .str "") ∧
    (c.featureTexts = [] → ∀ p, otmCardStep c = .ok (some p) →
      p.bedrooms = .num 0 ∧ p.bathrooms = .num 0) ∧
    (∀ cards, ∃ ps, otmLoop cards = .ok ps) := by
  obtain ⟨bb, hbb⟩ := featFold_ok c.featureTexts (0, 0) hf
  refine ⟨⟨?_, ?_⟩, fun hm => otmCardStep_missing hbb hm, ?_, ?_,
    fun cards => otmLoop_total cards⟩
  · rintro ⟨p, hp⟩
    by_contra hm
    rw [otmCardStep_missing hbb (Bool.not_eq_true _ ▸ hm)] at hp
    simp at hp
  · intro hm
    obtain ⟨nm, pr, href, hn, hp, hl, hi⟩ := otm_mandatory_extract ha hm
    exact ⟨_, otmCardStep_emit hbb hn hp hl hi⟩
  · intro hi0 p hp
    by_cases hm : otmMandatory c = true
    · obtain ⟨nm, pr, href, hn, hpr, hl, hi⟩ := otm_mandatory_extract ha hm
      rw [otmCardStep_emit hbb hn hpr hl hi] at hp
      have hpv := Option.some.inj (Except.ok.inj hp)
      rw [← hpv]
      simp [imgStr, hi0]
    · rw [otmCardStep_missing hbb (Bool.not_eq_true _ ▸ hm)] at hp
      simp at hp
  · intro hfe p hp
    have hbb0 : bb = (0, 0) := by
      rw [hfe] at hbb
      exact (Except.ok.inj hbb).symm
    by_cases hm : otmMandatory c = true
    · obtain ⟨nm, pr, href, hn, hpr, hl, hi⟩ := otm_mandatory_extract ha hm
      rw [otmCardStep_emit hbb hn hpr hl hi] at hp
      have hpv := Option.some.inj (Except.ok.inj hp)
      rw [← hpv, hbb0]
      exact ⟨rfl, rfl⟩
    · rw [otmCardStep_missing hbb (Bool.not_eq_true _ ▸ hm)] at hp
      simp at hp

/-- Witness for C8 amended, at a fully well-formed card with no image
tag and digit-bearing feature texts. -/
theorem otm_card_emission_witness :
    otmFeatureScanOk otmGoodCard = true ∧
    otmAttrsOk otmGoodCard = true ∧
    (((∃ p, otmCardStep otmGoodCard = .ok (some p)) ↔
        otmMandatory otmGoodCard = true) ∧
      (otmMandatory otmGoodCard = false → otmCardStep otmGoodCard = .ok none) ∧
      (otmGoodCard.imgSrc = none → ∀ p, otmCardStep otmGoodCard = .ok (some p) →
        p.image = .str "") ∧
      (otmGoodCard.featureTexts = [] →
        ∀ p, otmCardStep otmGoodCard = .ok (some p) →
          p.bedrooms = .num 0 ∧ p.bathrooms = .num 0) ∧
      (∀ cards, ∃ ps, otmLoop cards = .ok ps)) :=
  ⟨rfl, rfl, otm_card_emission otmGoodCard rfl rfl⟩

/-- C10: saving a set of link strings and loading the resulting file
returns exactly that set, whatever order the serialized array lists it
in (the argument list carries the set elements in an arbitrary order,
so the statement quantifies over every order). -/
theorem save_load_roundtrip (urls : List String) (h : urls.Nodup) :
    load_sent_listings (save_sent_listings urls) = .ok (urls.map Json.str) := by
  simp [load_sent_listings, save_sent_listings, pySet, pyIterate,
    all_hashable_str_map urls, jsonDedup_str_map h]

/-- Witness for C10 at the two-link store of the specification's own
scenario section. -/
theorem save_load_roundtrip_witness :
    (["https://a/1", "https://a/2"] : List String).Nodup ∧
    load_sent_listings (save_sent_listings ["https://a/1", "https://a/2"]) =
      .ok [.str "https://a/1", .str "https://a/2"] :=
  ⟨by decide, save_load_roundtrip ["https://a/1", "https://a/2"] (by decide)⟩

end HouseFinder
